import Mathlib

/-!
# goqless: the client facade and the job model (client.go, job.go)

A shallow embedding of the Go sources.  Conventions of the embedding:

* A Go `string` and a Go `[]byte` are both byte sequences and the conversions
  `string(b)` and `[]byte(s)` copy the bytes; both are carried by `String` and
  the conversions are the identity.  `strings.ToLower` and the capitalisation
  helper act on the ASCII letters.
* A Go `interface{}` value is a `Value`, tagged with its dynamic type.
* A Go `(result, error)` pair is a Lean pair whose second component is an
  `Option Error`; `none` is the nil error.
* Pointers to records (`*Job`, `*RecurringJob`, `*Queue`) are the records
  themselves, an operation that mutates its receiver returns the new record,
  and a nil pointer result is `none`.  A `*Client` is a connected client.
* Everything the operations do to the outside (reading the clock, generating an
  identifier, invoking the script runtime) is threaded through a `World`; what
  the outside answers is fixed by an `Env`.
* A Go run-time panic is the result `none` of an `Option`-valued operation.
-/

namespace Goqless

/-! ## Values and errors -/

/-- Go error values.  `ErrNil` is the sentinel `redis.ErrNil`; errors are
compared with `==` in the source, which is equality here. -/
inductive Error where
  | ErrNil
  | ErrRange
  | redis (msg : String)
  | text (msg : String)
  deriving DecidableEq, Repr

/-- A Go `interface{}` value together with its dynamic type: the nil interface,
`int`, `int64`, `bool`, `string`, `[]byte` (that is `[]uint8`), `[]string`
(also the named `StringSlice`), a `redis.Error` reply, `[]interface{}`, and a
value of any other type (its type name and printed form). -/
inductive Value where
  | nil
  | int (n : Int)
  | int64 (n : Int)
  | bool (b : Bool)
  | str (s : String)
  | bytes (b : String)
  | strs (xs : List String)
  | err (msg : String)
  | values (xs : List Value)
  | other (typ : String) (repr : String)
  deriving Repr

/-- Go type name of the dynamic type, as `%T` prints it. -/
def Value.typeName : Value → String
  | .nil => "<nil>"
  | .int _ => "int"
  | .int64 _ => "int64"
  | .bool _ => "bool"
  | .str _ => "string"
  | .bytes _ => "[]uint8"
  | .strs _ => "[]string"
  | .err _ => "redis.Error"
  | .values _ => "[]interface \x7b\x7d"
  | .other t _ => t

/-- Width of the Go type `int` on the 64-bit targets. -/
def intSize : Nat := 64

/-- Conversion of an integer to a signed machine integer of `bits` bits
(two's complement wrap-around), as Go's `int(x)` and `int64(x)` do. -/
def wrapSigned (bits : Nat) (n : Int) : Int :=
  (n + 2 ^ (bits - 1)) % 2 ^ bits - 2 ^ (bits - 1)

/-- Go conversion `int(x)` of an `int64`. -/
def toInt (n : Int) : Int := wrapSigned intSize n

/-- Go conversion `int64(x)` of an `int`. -/
def toInt64 (n : Int) : Int := wrapSigned 64 n

/-- Library function `strconv.Itoa`: the decimal digits, with a leading minus
sign for a negative number. -/
def strconv.Itoa (n : Int) : String :=
  if n < 0 then "-" ++ Nat.repr n.natAbs else Nat.repr n.natAbs

/-- Library function `strings.ToLower` on the ASCII letters. -/
def strings.ToLower (s : String) : String :=
  String.mk (s.data.map Char.toLower)

/-- Modelled from the spec: the helper `ucfirst` (called by
`RecurringJob.Update`, defined outside client.go and job.go): "first letter
upper-cased, remainder unchanged". -/
def ucfirst (s : String) : String :=
  match s.data with
  | [] => s
  | c :: cs => String.mk (c.toUpper :: cs)

/-! ## Records -/

/-- The `Client` of client.go.  The connection, the event subscription and the
script dispatcher are run-time handles; the client is identified by the host
and port it is connected to. -/
structure Client where
  host : String
  port : String
  deriving DecidableEq, Repr

/-- The `TaggedReply` of client.go. -/
structure TaggedReply where
  Total : Int
  Jobs : List String
  deriving DecidableEq, Repr

/-- The `History` of job.go. -/
structure History where
  When : Int
  Q : String
  What : String
  Worker : String
  deriving DecidableEq, Repr

/-- The `Job` of job.go. -/
structure Job where
  Jid : String
  Klass : String
  State : String
  Queue : String
  Worker : String
  Tracked : Bool
  Priority : Int
  Expires : Int
  Retries : Int
  Remaining : Int
  Data : Value
  Tags : List String
  History : List History
  Failure : Value
  Dependents : List String
  Dependencies : Value
  cli : Client
  deriving Repr

/-- The `RecurringJob` of job.go. -/
structure RecurringJob where
  Tags : List String
  Jid : String
  Retries : Int
  Data : Value
  Queue : String
  Interval : Int
  Count : Int
  Klass : String
  Priority : Int
  cli : Client
  deriving Repr

/-- Modelled from the spec: the `Queue` record (its declaration is outside
client.go and job.go).  client.go uses its `Name` field and its `cli` client
back-reference, which a freshly decoded element does not carry. -/
structure Queue where
  Name : String
  cli : Option Client
  deriving DecidableEq, Repr

/-! ## The outside world -/

/-- One invocation of the dispatcher: the client it goes through, the entry
point and the positional arguments. -/
structure Call where
  cli : Client
  name : String
  args : List Value
  deriving Repr

/-- What the operations have done to the outside so far: the invocations
issued, in order, the number of clock readings taken and the number of job
identifiers generated. -/
structure World where
  calls : List Call
  reads : Nat
  jids : Nat
  deriving Repr

/-- What the outside answers.  `now k` is the Unix time of the clock reading
number `k`; `generateJID k` is the identifier number `k`; `respond` is the
answer of the script dispatcher (`Lua.Do`) to a call, given the calls before
it; `marshal` is the JSON encoding of a payload; the `unmarshal` fields are
`json.Unmarshal` into a target of the given record type (the target as left by
the decoder, and the decoding error); `parseInt` and `parseBool` are
`strconv.ParseInt` and `strconv.ParseBool`. -/
structure Env where
  now : Nat → Int
  generateJID : Nat → String
  respond : List Call → Call → Value × Option Error
  marshal : Value → String
  unmarshalJob : String → Job → Job × Option Error
  unmarshalRecurringJob : String → RecurringJob → RecurringJob × Option Error
  unmarshalQueue : String → Queue → Queue × Option Error
  unmarshalQueues : String → List Queue → List Queue × Option Error
  unmarshalTagged : String → TaggedReply → TaggedReply × Option Error
  parseInt : String → Int × Option Error
  parseBool : String → Bool × Option Error

/-- Modelled from the spec: the helper `timestamp()` (defined outside client.go
and job.go): "a current timestamp (seconds since epoch, supplied by the client,
not the server clock)".  It reads the clock once. -/
def timestamp (env : Env) (w : World) : Value × World :=
  (.int64 (env.now w.reads), { w with reads := w.reads + 1 })

/-- Modelled from the spec: the helper `marshal` (defined outside client.go and
job.go): "data payloads are always JSON-encoded before transmission".  The
encoding is a byte string, like `finishBytes`, which takes its place in
`CompleteWithNoData`. -/
def marshal (env : Env) (v : Value) : Value :=
  .bytes (env.marshal v)

/-- The fixed payload of job.go sent by `CompleteWithNoData`. -/
def finishBytes : Value := .bytes "\x7b\"finish\":\"yes\"\x7d"

/-! ## Reply helpers of the redis library -/

/-- Library helper `redis.String`. -/
def redisString : Value × Option Error → String × Option Error
  | (_, some e) => ("", some e)
  | (.bytes b, none) => (b, none)
  | (.str s, none) => (s, none)
  | (.nil, none) => ("", some .ErrNil)
  | (.err m, none) => ("", some (.redis m))
  | (v, none) =>
    ("", some (.text ("redigo: unexpected type for String, got type " ++ v.typeName)))

/-- Library helper `redis.Bytes`.  The nil slice is the empty byte string. -/
def redisBytes : Value × Option Error → String × Option Error
  | (_, some e) => ("", some e)
  | (.bytes b, none) => (b, none)
  | (.str s, none) => (s, none)
  | (.nil, none) => ("", some .ErrNil)
  | (.err m, none) => ("", some (.redis m))
  | (v, none) =>
    ("", some (.text ("redigo: unexpected type for Bytes, got type " ++ v.typeName)))

/-- Library helper `redis.Int64`. -/
def redisInt64 (env : Env) : Value × Option Error → Int × Option Error
  | (_, some e) => (0, some e)
  | (.int64 n, none) => (n, none)
  | (.bytes b, none) => env.parseInt b
  | (.nil, none) => (0, some .ErrNil)
  | (.err m, none) => (0, some (.redis m))
  | (v, none) =>
    (0, some (.text ("redigo: unexpected type for Int64, got type " ++ v.typeName)))

/-- Library helper `redis.Int`. -/
def redisInt (env : Env) : Value × Option Error → Int × Option Error
  | (_, some e) => (0, some e)
  | (.int64 n, none) =>
    if toInt64 (toInt n) ≠ n then (0, some .ErrRange) else (toInt n, none)
  | (.bytes b, none) => ((toInt (env.parseInt b).1), (env.parseInt b).2)
  | (.nil, none) => (0, some .ErrNil)
  | (.err m, none) => (0, some (.redis m))
  | (v, none) =>
    (0, some (.text ("redigo: unexpected type for Int, got type " ++ v.typeName)))

/-- Library helper `redis.Values`.  The nil slice is the empty list. -/
def redisValues : Value × Option Error → List Value × Option Error
  | (_, some e) => ([], some e)
  | (.values xs, none) => (xs, none)
  | (.nil, none) => ([], some .ErrNil)
  | (.err m, none) => ([], some (.redis m))
  | (v, none) =>
    ([], some (.text ("redigo: unexpected type for Values, got type " ++ v.typeName)))

/-- Modelled from the spec: the helper `Bool` (defined outside client.go and
job.go), the boolean counterpart of the reply helpers above: a failure of the
invocation is "surfaced verbatim", an integer reply is true when it is not
zero, a byte-string reply is parsed as a boolean. -/
def goqless.Bool (env : Env) : Value × Option Error → Bool × Option Error
  | (_, some e) => (false, some e)
  | (.int64 n, none) => (n != 0, none)
  | (.bytes b, none) => env.parseBool b
  | (.nil, none) => (false, some .ErrNil)
  | (.err m, none) => (false, some (.redis m))
  | (v, none) =>
    (false, some (.text ("redigo: unexpected type for Bool, got type " ++ v.typeName)))

/-! ## client.go -/

/-- The method `Client.Do`: hands the call to the script dispatcher.  The call
is recorded and the answer is the one of the environment. -/
def Client.Do (env : Env) (c : Client) (name : String) (keysAndArgs : List Value)
    (w : World) : (Value × Option Error) × World :=
  (env.respond w.calls ⟨c, name, keysAndArgs⟩,
    { w with calls := w.calls ++ [⟨c, name, keysAndArgs⟩] })

/-- The method `Client.GetConfig`. -/
def Client.GetConfig (env : Env) (c : Client) (option : String) (w : World) :
    (String × Option Error) × World :=
  let t := timestamp env w
  let d := Client.Do env c "qless" [.int 0, .str "config.get", t.1, .str option] t.2
  match d.1.2 with
  | some err => (("", some err), d.2)
  | none =>
    let r : String × Option Error :=
      match d.1.1 with
      | .bytes b => redisString (.bytes b, none)
      | .int64 n =>
        let i := redisInt64 env (.int64 n, none)
        if i.2 = none then (strconv.Itoa (toInt i.1), none) else ("", i.2)
      | _ => ("", some (.text "The redis return type is not []uint8 or int64"))
    match r.2 with
    | some err => (("", some err), d.2)
    | none => ((r.1, none), d.2)

/-- Modelled from the spec: the constructor `NewQueue` (defined outside client.go
and job.go): a queue record with the client reference attached. -/
def NewQueue (cli : Client) : Queue :=
  { Name := "", cli := some cli }

/-- The method `Client.Queue`. -/
def Client.Queue (c : Client) (name : String) : Queue :=
  { NewQueue c with Name := name }

/-- The method `Client.Queues`.  A nil slice result is the empty list. -/
def Client.Queues (env : Env) (c : Client) (name : String) (w : World) :
    (List Goqless.Queue × Option Error) × World :=
  let t := timestamp env w
  let args : List Value := [.int 0, .str "queues", t.1]
  let args := if name ≠ "" then args ++ [.str name] else args
  let d := Client.Do env c "qless" args t.2
  let b := redisBytes d.1
  match b.2 with
  | some err => (([], some err), d.2)
  | none =>
    let qr : List Goqless.Queue := [NewQueue c]
    let u : List Goqless.Queue × Option Error :=
      if name = "" then
        let u := env.unmarshalQueues b.1 qr
        (u.1.map (fun q => { q with cli := some c }), u.2)
      else
        let u := env.unmarshalQueue b.1 (NewQueue c)
        ([u.1], u.2)
    match u.2 with
    | some err => (([], some err), d.2)
    | none => ((u.1, none), d.2)

/-- The method `Client.Track`. -/
def Client.Track (env : Env) (c : Client) (jid : String) (w : World) :
    (Bool × Option Error) × World :=
  let t := timestamp env w
  let d := Client.Do env c "qless"
    [.int 0, .str "track", t.1, .str "track", .str jid, .str ""] t.2
  (goqless.Bool env d.1, d.2)

/-- The method `Client.Untrack`. -/
def Client.Untrack (env : Env) (c : Client) (jid : String) (w : World) :
    (Bool × Option Error) × World :=
  let t := timestamp env w
  let d := Client.Do env c "qless"
    [.int 0, .str "track", t.1, .int 0, .str "untrack", .str jid] t.2
  (goqless.Bool env d.1, d.2)

/-- The method `Client.Tracked`. -/
def Client.Tracked (env : Env) (c : Client) (w : World) :
    (String × Option Error) × World :=
  let t := timestamp env w
  let d := Client.Do env c "qless" [.int 0, .str "track", t.1] t.2
  (redisString d.1, d.2)

/-- Modelled from the spec: the helper `generateJID` (called by `NewJob`, defined
outside client.go and job.go): a job identifier, "client- or
server-generated"; here the next identifier of the environment. -/
def generateJID (env : Env) (w : World) : String × World :=
  (env.generateJID w.jids, { w with jids := w.jids + 1 })

/-- The constructor `NewJob`: reads the clock, then generates the identifier.
`time.Hour * 60` is 216000 seconds. -/
def NewJob (env : Env) (cli : Client) (w : World) : Job × World :=
  let expires := env.now w.reads + 216000
  let w1 : World := { w with reads := w.reads + 1 }
  let g := generateJID env w1
  ({ Expires := expires
     Dependents := []
     Tracked := false
     Tags := []
     Jid := g.1
     Retries := 5
     Data := .nil
     Queue := "mock_queue"
     State := "running"
     Remaining := 5
     Failure := .nil
     History := []
     Dependencies := .nil
     Klass := "Job"
     Priority := 0
     Worker := "mock_worker"
     cli := cli }, g.2)

/-- The constructor `NewRecurringJob`: every field but the client reference has
its zero value. -/
def NewRecurringJob (cli : Client) : RecurringJob :=
  { Tags := [], Jid := "", Retries := 0, Data := .nil, Queue := "", Interval := 0,
    Count := 0, Klass := "", Priority := 0, cli := cli }

/-- The method `Client.GetJob`. -/
def Client.GetJob (env : Env) (c : Client) (jid : String) (w : World) :
    (Option Job × Option Error) × World :=
  let t := timestamp env w
  let d := Client.Do env c "qless" [.int 0, .str "get", t.1, .str jid] t.2
  let b := redisBytes d.1
  match b.2 with
  | some err => ((none, some err), d.2)
  | none =>
    let j := NewJob env c d.2
    let u := env.unmarshalJob b.1 j.1
    match u.2 with
    | some err => ((none, some err), j.2)
    | none => ((some u.1, none), j.2)

/-- The method `Client.GetRecurringJob`. -/
def Client.GetRecurringJob (env : Env) (c : Client) (jid : String) (w : World) :
    (Option RecurringJob × Option Error) × World :=
  let t := timestamp env w
  let d := Client.Do env c "qless" [.int 0, .str "recur", t.1, .str "get", .str jid] t.2
  let b := redisBytes d.1
  match b.2 with
  | some err => ((none, some err), d.2)
  | none =>
    let u := env.unmarshalRecurringJob b.1 (NewRecurringJob c)
    match u.2 with
    | some err => ((none, some err), d.2)
    | none => ((some u.1, none), d.2)

/-- What `Client.Get` returns in its `interface{}` result: a `*Job` or a
`*RecurringJob`, either of which may be the nil pointer. -/
inductive Found where
  | job (j : Option Job)
  | rjob (r : Option RecurringJob)
  deriving Repr

/-- The method `Client.Get`. -/
def Client.Get (env : Env) (c : Client) (jid : String) (w : World) :
    (Found × Option Error) × World :=
  let g := Client.GetJob env c jid w
  if g.1.2 = some Error.ErrNil then
    let r := Client.GetRecurringJob env c jid g.2
    ((.rjob r.1.1, r.1.2), r.2)
  else
    ((.job g.1.1, g.1.2), g.2)

/-- The method `Client.Completed`.  The parameters `start` and `count` are not
used by the source. -/
def Client.Completed (env : Env) (c : Client) (_start _count : Int) (w : World) :
    (List String × Option Error) × World :=
  let t := timestamp env w
  let d := Client.Do env c "qless" [.int 0, .str "jobs", t.1, .str "complete"] t.2
  let v := redisValues d.1
  match v.2 with
  | some err => (([], some err), d.2)
  | none => ((v.1.map (fun val => (redisString (val, none)).1), none), d.2)

/-- The method `Client.Tagged`. -/
def Client.Tagged (env : Env) (c : Client) (tag : String) (start count : Int)
    (w : World) : (Option TaggedReply × Option Error) × World :=
  let t := timestamp env w
  let d := Client.Do env c "qless"
    [.int 0, .str "tag", t.1, .str "get", .str tag, .int start, .int count] t.2
  let b := redisBytes d.1
  match b.2 with
  | some err => ((none, some err), d.2)
  | none =>
    let u := env.unmarshalTagged b.1 { Total := 0, Jobs := [] }
    ((some u.1, u.2), d.2)

/-- The method `Client.SetConfig`.  It has no result; on a failure it prints a
diagnostic line, which is not part of the world recorded here. -/
def Client.SetConfig (env : Env) (c : Client) (option : String) (value : Value)
    (w : World) : World :=
  let t := timestamp env w
  (Client.Do env c "qless" [.int 0, .str "config.set", t.1, .str option, value] t.2).2

/-- The method `Client.UnsetConfig`.  It has no result. -/
def Client.UnsetConfig (env : Env) (c : Client) (option : String) (w : World) : World :=
  let t := timestamp env w
  (Client.Do env c "qless" [.int 0, .str "config.unset", t.1, .str option] t.2).2

/-! ## job.go -/

/-- The package variable `JOBSTATES`. -/
def JOBSTATES : List String := ["stalled", "running", "scheduled", "depends", "recurring"]

/-- The method `Job.Client`. -/
def Job.Client (j : Job) : Goqless.Client := j.cli

/-- The method `Job.SetClient`. -/
def Job.SetClient (j : Job) (cli : Goqless.Client) : Job := { j with cli := cli }

/-- The method `Job.Move`. -/
def Job.Move (env : Env) (j : Job) (queueName : String) (w : World) :
    (String × Option Error) × World :=
  let t := timestamp env w
  let d := Client.Do env j.cli "qless"
    [.int 0, .str "put", t.1, .str queueName, .str j.Jid, .str j.Klass, marshal env j.Data,
      .int 0] t.2
  (redisString d.1, d.2)

/-- The method `Job.Fail`. -/
def Job.Fail (env : Env) (j : Job) (typ message : String) (w : World) :
    (Bool × Option Error) × World :=
  let t := timestamp env w
  let d := Client.Do env j.cli "qless"
    [.int 0, .str "fail", t.1, .str j.Jid, .str j.Worker, .str typ, .str message,
      marshal env j.Data] t.2
  (goqless.Bool env d.1, d.2)

/-- The method `Job.Heartbeat`. -/
def Job.Heartbeat (env : Env) (j : Job) (w : World) : (Bool × Option Error) × World :=
  let t := timestamp env w
  let d := Client.Do env j.cli "qless"
    [.int 0, .str "heartbeat", t.1, .str j.Jid, .str j.Worker, marshal env j.Data] t.2
  (goqless.Bool env d.1, d.2)

/-- The method `Job.Complete`. -/
def Job.Complete (env : Env) (j : Job) (w : World) : (String × Option Error) × World :=
  let t := timestamp env w
  let d := Client.Do env j.cli "qless"
    [.int 0, .str "complete", t.1, .str j.Jid, .str j.Worker, .str j.Queue,
      marshal env j.Data] t.2
  (redisString d.1, d.2)

/-- The method `Job.CompleteWithNoData`. -/
def Job.CompleteWithNoData (env : Env) (j : Job) (w : World) :
    (String × Option Error) × World :=
  let t := timestamp env w
  let d := Client.Do env j.cli "qless"
    [.int 0, .str "complete", t.1, .str j.Jid, .str j.Worker, .str j.Queue, finishBytes] t.2
  (redisString d.1, d.2)

/-- The method `Job.HeartbeatWithNoData`. -/
def Job.HeartbeatWithNoData (env : Env) (j : Job) (w : World) :
    (Bool × Option Error) × World :=
  let t := timestamp env w
  let d := Client.Do env j.cli "qless"
    [.int 0, .str "heartbeat", t.1, .str j.Jid, .str j.Worker] t.2
  (goqless.Bool env d.1, d.2)

/-- The method `Job.Cancel`.  It has no result. -/
def Job.Cancel (env : Env) (j : Job) (w : World) : World :=
  let t := timestamp env w
  (Client.Do env j.cli "qless" [.int 0, .str "cancel", t.1, .str j.Jid] t.2).2

/-- The method `Job.Track`. -/
def Job.Track (env : Env) (j : Job) (w : World) : (Bool × Option Error) × World :=
  let t := timestamp env w
  let d := Client.Do env j.cli "qless" [.int 0, .str "track", t.1, .str "track", .str j.Jid] t.2
  (goqless.Bool env d.1, d.2)

/-- The method `Job.Untrack`. -/
def Job.Untrack (env : Env) (j : Job) (w : World) : (Bool × Option Error) × World :=
  let t := timestamp env w
  let d := Client.Do env j.cli "qless"
    [.int 0, .str "track", t.1, .str "untrack", .str j.Jid] t.2
  (goqless.Bool env d.1, d.2)

/-- The method `Job.Tag`. -/
def Job.Tag (env : Env) (j : Job) (tags : List Value) (w : World) :
    (String × Option Error) × World :=
  let t := timestamp env w
  let args : List Value := [.int 0, .str "tag", t.1, .str "add", .str j.Jid]
  let args := args ++ tags
  let d := Client.Do env j.cli "qless" args t.2
  (redisString d.1, d.2)

/-- The method `Job.Untag`. -/
def Job.Untag (env : Env) (j : Job) (tags : List Value) (w : World) :
    (String × Option Error) × World :=
  let t := timestamp env w
  let args : List Value := [.int 0, .str "tag", t.1, .str "remove", .str j.Jid]
  let args := args ++ tags
  let d := Client.Do env j.cli "qless" args t.2
  (redisString d.1, d.2)

/-- The method `Job.Retry`. -/
def Job.Retry (env : Env) (j : Job) (delay : Int) (w : World) :
    (Int × Option Error) × World :=
  let t := timestamp env w
  let d := Client.Do env j.cli "qless"
    [.int 0, .str "retry", t.1, .str j.Jid, .str j.Queue, .str j.Worker, .int delay] t.2
  (redisInt env d.1, d.2)

/-- The method `Job.Depend`. -/
def Job.Depend (env : Env) (j : Job) (jids : List Value) (w : World) :
    (String × Option Error) × World :=
  let t := timestamp env w
  let args : List Value := [.int 0, .str "depends", t.1, .str j.Jid, .str "on"]
  let args := args ++ jids
  let d := Client.Do env j.cli "qless" args t.2
  (redisString d.1, d.2)

/-- The method `Job.Undepend`. -/
def Job.Undepend (env : Env) (j : Job) (jids : List Value) (w : World) :
    (String × Option Error) × World :=
  let t := timestamp env w
  let args : List Value := [.int 0, .str "depends", t.1, .str j.Jid, .str "off"]
  let args := args ++ jids
  let d := Client.Do env j.cli "qless" args t.2
  (redisString d.1, d.2)

/-- The fields of the struct `RecurringJob`, as reflection sees them. -/
inductive Field where
  | Tags | Jid | Retries | Data | Queue | Interval | Count | Klass | Priority | cli
  deriving DecidableEq, Repr

/-- Library method `reflect.Value.FieldByName` on a `RecurringJob`: the field
with exactly that name, `none` for the invalid value it returns when the
struct has no such field. -/
def FieldByName (name : String) : Option Field :=
  if name = "Tags" then some .Tags
  else if name = "Jid" then some .Jid
  else if name = "Retries" then some .Retries
  else if name = "Data" then some .Data
  else if name = "Queue" then some .Queue
  else if name = "Interval" then some .Interval
  else if name = "Count" then some .Count
  else if name = "Klass" then some .Klass
  else if name = "Priority" then some .Priority
  else if name = "cli" then some .cli
  else none

/-- Library method `reflect.Value.Set` on a field of a `RecurringJob`, with the
value `reflect.ValueOf(v)`: it stores a value whose dynamic type is assignable
to the type of the field and panics (`none`) otherwise, as it does for the
zero `reflect.Value` of the nil interface and for the unexported field. -/
def RecurringJob.Set (r : RecurringJob) : Field → Value → Option RecurringJob
  | .Tags, .strs xs => some { r with Tags := xs }
  | .Jid, .str s => some { r with Jid := s }
  | .Retries, .int n => some { r with Retries := n }
  | .Data, .nil => none
  | .Data, v => some { r with Data := v }
  | .Queue, .str s => some { r with Queue := s }
  | .Interval, .int n => some { r with Interval := n }
  | .Count, .int n => some { r with Count := n }
  | .Klass, .str s => some { r with Klass := s }
  | .Priority, .int n => some { r with Priority := n }
  | _, _ => none

/-- The loop of `RecurringJob.Update` over the entries of the mapping, in the
order in which the iteration yields them: the state is the record and the
argument list built so far. -/
def RecurringJob.updateLoop (env : Env) :
    List (String × Value) → RecurringJob × List Value → Option (RecurringJob × List Value)
  | [], st => some st
  | (key, value) :: rest, (r, args) =>
    let key := strings.ToLower key
    match FieldByName (ucfirst key) with
    | none => RecurringJob.updateLoop env rest (r, args)
    | some v =>
      let setv := if key = "data" then marshal env value else value
      match r.Set v setv with
      | none => none
      | some r1 => RecurringJob.updateLoop env rest (r1, args ++ [.str key, value])

/-- The method `RecurringJob.Update`.  The mapping is the list of its entries
in iteration order.  It has no result; the receiver is updated in place, and
the new record and world are returned. -/
def RecurringJob.Update (env : Env) (r : RecurringJob) (opts : List (String × Value))
    (w : World) : Option (RecurringJob × World) :=
  let t := timestamp env w
  let args : List Value := [.int 0, .str "recur", t.1, .str "update", .str r.Jid]
  match RecurringJob.updateLoop env opts (r, args) with
  | none => none
  | some (r1, args1) => some (r1, (Client.Do env r1.cli "qless" args1 t.2).2)

/-- The method `RecurringJob.Cancel`.  It has no result. -/
def RecurringJob.Cancel (env : Env) (r : RecurringJob) (w : World) : World :=
  let t := timestamp env w
  (Client.Do env r.cli "qless" [.int 0, .str "recur", t.1, .str "off", .str r.Jid] t.2).2

/-- The method `RecurringJob.Tag`.  It has no result. -/
def RecurringJob.Tag (env : Env) (r : RecurringJob) (tags : List Value) (w : World) :
    World :=
  let t := timestamp env w
  let args : List Value := [.int 0, .str "recur", t.1, .str "tag", .str r.Jid]
  let args := args ++ tags
  (Client.Do env r.cli "qless" args t.2).2

/-- The method `RecurringJob.Untag`.  It has no result. -/
def RecurringJob.Untag (env : Env) (r : RecurringJob) (tags : List Value) (w : World) :
    World :=
  let t := timestamp env w
  let args : List Value := [.int 0, .str "recur", t.1, .str "untag", .str r.Jid]
  let args := args ++ tags
  (Client.Do env r.cli "qless" args t.2).2

/-! ## A sample environment for the concrete instances -/

/-- A sample JSON encoding of the scalar payloads. -/
def sampleMarshal : Value → String
  | .nil => "null"
  | .int n => strconv.Itoa n
  | .int64 n => strconv.Itoa n
  | .bool b => if b then "true" else "false"
  | .str s => "\"" ++ s ++ "\""
  | _ => "\"\""

/-- A sample environment: the clock starts at 1700000000 and advances by one
second a reading, the identifiers are numbered, the dispatcher answers with
`respond`, and the decoders reject the empty input and otherwise store the
input in the name (or identifier) field of the target. -/
def sampleEnv (respond : List Call → Call → Value × Option Error) : Env where
  now := fun k => 1700000000 + k
  generateJID := fun k => "jid" ++ Nat.repr k
  respond := respond
  marshal := sampleMarshal
  unmarshalJob := fun b j =>
    if b = "" then (j, some (.text "unexpected end of JSON input"))
    else ({ j with Jid := b }, none)
  unmarshalRecurringJob := fun b r =>
    if b = "" then (r, some (.text "unexpected end of JSON input"))
    else ({ r with Jid := b }, none)
  unmarshalQueue := fun b q =>
    if b = "" then (q, some (.text "unexpected end of JSON input"))
    else ({ q with Name := b }, none)
  unmarshalQueues := fun b qr =>
    if b = "" then (qr, some (.text "unexpected end of JSON input"))
    else ([{ Name := b, cli := none }, { Name := b ++ "2", cli := none }], none)
  unmarshalTagged := fun b t =>
    if b = "" then (t, some (.text "unexpected end of JSON input"))
    else ({ t with Jobs := [b] }, none)
  parseInt := fun b => if b = "1" then (1, none) else (0, some (.text "invalid syntax"))
  parseBool := fun b => if b = "true" then (true, none) else (false, some (.text "invalid syntax"))

/-- A sample client. -/
def sampleClient : Client := { host := "localhost", port := "6379" }

/-- The world before anything has been done. -/
def World.start : World := { calls := [], reads := 0, jids := 0 }

/-- A sample job of the sample client. -/
def sampleJob : Job :=
  { Jid := "j1", Klass := "Job", State := "running", Queue := "q", Worker := "w1",
    Tracked := false, Priority := 0, Expires := 0, Retries := 5, Remaining := 5,
    Data := .str "payload", Tags := [], History := [], Failure := .nil, Dependents := [],
    Dependencies := .nil, cli := sampleClient }

/-- A sample recurring job of the sample client. -/
def sampleRecurringJob : RecurringJob :=
  { Tags := ["t"], Jid := "r1", Retries := 3, Data := .str "payload", Queue := "q",
    Interval := 60, Count := 2, Klass := "K", Priority := 1, cli := sampleClient }

/-- A sample dispatcher: a plain job is not found (nil reply to `get`), the
recurring-job lookup fails, every other call is answered with 1. -/
def notFoundThenFail : List Call → Call → Value × Option Error
  | _, ⟨_, _, [_, .str "get", _, _]⟩ => (.nil, none)
  | _, ⟨_, _, _ :: .str "recur" :: _⟩ => (.nil, some (.redis "ERR"))
  | _, _ => (.int64 1, none)

/-! ## Auxiliary definitions of the statements -/

/-- The mutating operations of `Job`, `RecurringJob` and `Client`, each with its
receiver and its inputs. -/
inductive MutatingOp where
  | JobMove (j : Job) (queueName : String)
  | JobFail (j : Job) (typ message : String)
  | JobHeartbeat (j : Job)
  | JobHeartbeatWithNoData (j : Job)
  | JobComplete (j : Job)
  | JobCompleteWithNoData (j : Job)
  | JobCancel (j : Job)
  | JobTrack (j : Job)
  | JobUntrack (j : Job)
  | JobTag (j : Job) (tags : List Value)
  | JobUntag (j : Job) (tags : List Value)
  | JobRetry (j : Job) (delay : Int)
  | JobDepend (j : Job) (jids : List Value)
  | JobUndepend (j : Job) (jids : List Value)
  | RecurringJobUpdate (r : RecurringJob) (opts : List (String × Value))
  | RecurringJobCancel (r : RecurringJob)
  | RecurringJobTag (r : RecurringJob) (tags : List Value)
  | RecurringJobUntag (r : RecurringJob) (tags : List Value)
  | ClientTrack (c : Client) (jid : String)
  | ClientUntrack (c : Client) (jid : String)
  | ClientSetConfig (c : Client) (option : String) (value : Value)
  | ClientUnsetConfig (c : Client) (option : String)

/-- The world a mutating operation leaves behind; `none` when it panics. -/
def MutatingOp.run (env : Env) : MutatingOp → World → Option World
  | .JobMove j queueName, w => some (Job.Move env j queueName w).2
  | .JobFail j typ message, w => some (Job.Fail env j typ message w).2
  | .JobHeartbeat j, w => some (Job.Heartbeat env j w).2
  | .JobHeartbeatWithNoData j, w => some (Job.HeartbeatWithNoData env j w).2
  | .JobComplete j, w => some (Job.Complete env j w).2
  | .JobCompleteWithNoData j, w => some (Job.CompleteWithNoData env j w).2
  | .JobCancel j, w => some (Job.Cancel env j w)
  | .JobTrack j, w => some (Job.Track env j w).2
  | .JobUntrack j, w => some (Job.Untrack env j w).2
  | .JobTag j tags, w => some (Job.Tag env j tags w).2
  | .JobUntag j tags, w => some (Job.Untag env j tags w).2
  | .JobRetry j delay, w => some (Job.Retry env j delay w).2
  | .JobDepend j jids, w => some (Job.Depend env j jids w).2
  | .JobUndepend j jids, w => some (Job.Undepend env j jids w).2
  | .RecurringJobUpdate r opts, w => (RecurringJob.Update env r opts w).map (fun p => p.2)
  | .RecurringJobCancel r, w => some (RecurringJob.Cancel env r w)
  | .RecurringJobTag r tags, w => some (RecurringJob.Tag env r tags w)
  | .RecurringJobUntag r tags, w => some (RecurringJob.Untag env r tags w)
  | .ClientTrack c jid, w => some (Client.Track env c jid w).2
  | .ClientUntrack c jid, w => some (Client.Untrack env c jid w).2
  | .ClientSetConfig c option value, w => some (Client.SetConfig env c option value w)
  | .ClientUnsetConfig c option, w => some (Client.UnsetConfig env c option w)

/-- Whether a call is a `cancel` invocation. -/
def isCancel : Call → Bool
  | ⟨_, _, _ :: .str "cancel" :: _⟩ => true
  | _ => false

/-- A sample dispatcher: once a job has been cancelled, every later call fails
with the error of the runtime; before that, every call is answered with 1. -/
def lostAfterCancel (hist : List Call) (_call : Call) : Value × Option Error :=
  if hist.any isCancel then (.nil, some (.redis "ERR Job does not exist")) else (.int64 1, none)

/-- The operations of `Client` and `Job` that perform a remote invocation and
return a result together with an error, each with its receiver and its
inputs. -/
inductive ResultOp where
  | ClientDo (c : Client) (name : String) (keysAndArgs : List Value)
  | ClientQueues (c : Client) (name : String)
  | ClientTrack (c : Client) (jid : String)
  | ClientUntrack (c : Client) (jid : String)
  | ClientTracked (c : Client)
  | ClientGet (c : Client) (jid : String)
  | ClientGetJob (c : Client) (jid : String)
  | ClientGetRecurringJob (c : Client) (jid : String)
  | ClientCompleted (c : Client) (start count : Int)
  | ClientTagged (c : Client) (tag : String) (start count : Int)
  | ClientGetConfig (c : Client) (option : String)
  | JobMove (j : Job) (queueName : String)
  | JobFail (j : Job) (typ message : String)
  | JobHeartbeat (j : Job)
  | JobComplete (j : Job)
  | JobCompleteWithNoData (j : Job)
  | JobHeartbeatWithNoData (j : Job)
  | JobTrack (j : Job)
  | JobUntrack (j : Job)
  | JobTag (j : Job) (tags : List Value)
  | JobUntag (j : Job) (tags : List Value)
  | JobRetry (j : Job) (delay : Int)
  | JobDepend (j : Job) (jids : List Value)
  | JobUndepend (j : Job) (jids : List Value)

/-- The error a result-returning operation hands to its caller, and the world it
leaves behind. -/
def ResultOp.run (env : Env) : ResultOp → World → Option Error × World
  | .ClientDo c name keysAndArgs, w =>
    ((Client.Do env c name keysAndArgs w).1.2, (Client.Do env c name keysAndArgs w).2)
  | .ClientQueues c name, w => ((Client.Queues env c name w).1.2, (Client.Queues env c name w).2)
  | .ClientTrack c jid, w => ((Client.Track env c jid w).1.2, (Client.Track env c jid w).2)
  | .ClientUntrack c jid, w => ((Client.Untrack env c jid w).1.2, (Client.Untrack env c jid w).2)
  | .ClientTracked c, w => ((Client.Tracked env c w).1.2, (Client.Tracked env c w).2)
  | .ClientGet c jid, w => ((Client.Get env c jid w).1.2, (Client.Get env c jid w).2)
  | .ClientGetJob c jid, w => ((Client.GetJob env c jid w).1.2, (Client.GetJob env c jid w).2)
  | .ClientGetRecurringJob c jid, w =>
    ((Client.GetRecurringJob env c jid w).1.2, (Client.GetRecurringJob env c jid w).2)
  | .ClientCompleted c start count, w =>
    ((Client.Completed env c start count w).1.2, (Client.Completed env c start count w).2)
  | .ClientTagged c tag start count, w =>
    ((Client.Tagged env c tag start count w).1.2, (Client.Tagged env c tag start count w).2)
  | .ClientGetConfig c option, w =>
    ((Client.GetConfig env c option w).1.2, (Client.GetConfig env c option w).2)
  | .JobMove j queueName, w => ((Job.Move env j queueName w).1.2, (Job.Move env j queueName w).2)
  | .JobFail j typ message, w =>
    ((Job.Fail env j typ message w).1.2, (Job.Fail env j typ message w).2)
  | .JobHeartbeat j, w => ((Job.Heartbeat env j w).1.2, (Job.Heartbeat env j w).2)
  | .JobComplete j, w => ((Job.Complete env j w).1.2, (Job.Complete env j w).2)
  | .JobCompleteWithNoData j, w =>
    ((Job.CompleteWithNoData env j w).1.2, (Job.CompleteWithNoData env j w).2)
  | .JobHeartbeatWithNoData j, w =>
    ((Job.HeartbeatWithNoData env j w).1.2, (Job.HeartbeatWithNoData env j w).2)
  | .JobTrack j, w => ((Job.Track env j w).1.2, (Job.Track env j w).2)
  | .JobUntrack j, w => ((Job.Untrack env j w).1.2, (Job.Untrack env j w).2)
  | .JobTag j tags, w => ((Job.Tag env j tags w).1.2, (Job.Tag env j tags w).2)
  | .JobUntag j tags, w => ((Job.Untag env j tags w).1.2, (Job.Untag env j tags w).2)
  | .JobRetry j delay, w => ((Job.Retry env j delay w).1.2, (Job.Retry env j delay w).2)
  | .JobDepend j jids, w => ((Job.Depend env j jids w).1.2, (Job.Depend env j jids w).2)
  | .JobUndepend j jids, w => ((Job.Undepend env j jids w).1.2, (Job.Undepend env j jids w).2)
/-! ## Theorems -/

theorem toInt_of_int64 (n : Int) (h1 : -(2 : Int) ^ 63 ≤ n) (h2 : n < (2 : Int) ^ 63) :
    toInt n = n := by
  unfold toInt wrapSigned intSize
  norm_num at h1 h2 ⊢
  omega

/-- C1: `Client.GetConfig` issues the one invocation `config.get` and, when it
succeeds with an integer reply `n` (an `int64`), returns the decimal form of
`n` and no error; with a byte-string reply `b`, returns `b` and no error; with
a reply of any other shape, returns the empty string and the
unsupported-type error; and when the invocation fails with `e`, returns the
empty string and `e`. -/
theorem GetConfig_reply (env : Env) (c : Client) (option : String) (w : World) :
    (Client.GetConfig env c option w).2.calls =
      w.calls ++ [⟨c, "qless", [.int 0, .str "config.get", .int64 (env.now w.reads),
        .str option]⟩] ∧
    (∀ n : Int, -(2 : Int) ^ 63 ≤ n → n < (2 : Int) ^ 63 →
      env.respond w.calls ⟨c, "qless", [.int 0, .str "config.get", .int64 (env.now w.reads),
        .str option]⟩ = (.int64 n, none) →
      (Client.GetConfig env c option w).1 = (strconv.Itoa n, none)) ∧
    (∀ b : String,
      env.respond w.calls ⟨c, "qless", [.int 0, .str "config.get", .int64 (env.now w.reads),
        .str option]⟩ = (.bytes b, none) →
      (Client.GetConfig env c option w).1 = (b, none)) ∧
    (∀ v : Value, (∀ n, v ≠ .int64 n) → (∀ b, v ≠ .bytes b) →
      env.respond w.calls ⟨c, "qless", [.int 0, .str "config.get", .int64 (env.now w.reads),
        .str option]⟩ = (v, none) →
      (Client.GetConfig env c option w).1 =
        ("", some (.text "The redis return type is not []uint8 or int64"))) ∧
    (∀ (v : Value) (e : Error),
      env.respond w.calls ⟨c, "qless", [.int 0, .str "config.get", .int64 (env.now w.reads),
        .str option]⟩ = (v, some e) →
      (Client.GetConfig env c option w).1 = ("", some e)) := by
  refine ⟨?_, ?_, ?_, ?_, ?_⟩
  · unfold Client.GetConfig
    simp only [timestamp, Client.Do]
    split
    · rfl
    · split <;> rfl
  · intro n h1 h2 h
    unfold Client.GetConfig
    simp only [timestamp, Client.Do]
    simp [h, redisInt64, toInt_of_int64 n h1 h2]
  · intro b h
    unfold Client.GetConfig
    simp only [timestamp, Client.Do]
    simp [h, redisString]
  · intro v hn hb h
    unfold Client.GetConfig
    simp only [timestamp, Client.Do]
    rw [h]
    cases v <;> simp_all
  · intro v e h
    unfold Client.GetConfig
    simp only [timestamp, Client.Do]
    simp [h]

/-- C1 at concrete replies: the integer reply 42 is returned as "42", the
byte-string reply "60" verbatim, a nil reply as the unsupported-type error and
a failed invocation as its own error. -/
theorem GetConfig_reply_witness :
    (Client.GetConfig (sampleEnv (fun _ _ => (.int64 42, none))) sampleClient
      "heartbeat" World.start).1 = ("42", none) ∧
    (Client.GetConfig (sampleEnv (fun _ _ => (.bytes "60", none))) sampleClient
      "heartbeat" World.start).1 = ("60", none) ∧
    (Client.GetConfig (sampleEnv (fun _ _ => (.nil, none))) sampleClient
      "heartbeat" World.start).1 =
        ("", some (.text "The redis return type is not []uint8 or int64")) ∧
    (Client.GetConfig (sampleEnv (fun _ _ => (.nil, some (.redis "ERR")))) sampleClient
      "heartbeat" World.start).1 = ("", some (.redis "ERR")) :=
  ⟨(GetConfig_reply (sampleEnv (fun _ _ => (.int64 42, none))) sampleClient
      "heartbeat" World.start).2.1 42 (by norm_num) (by norm_num) rfl,
   (GetConfig_reply (sampleEnv (fun _ _ => (.bytes "60", none))) sampleClient
      "heartbeat" World.start).2.2.1 "60" rfl,
   (GetConfig_reply (sampleEnv (fun _ _ => (.nil, none))) sampleClient
      "heartbeat" World.start).2.2.2.1 .nil (by simp) (by simp) rfl,
   (GetConfig_reply (sampleEnv (fun _ _ => (.nil, some (.redis "ERR")))) sampleClient
      "heartbeat" World.start).2.2.2.2 .nil (.redis "ERR") rfl⟩

theorem GetJob_calls (env : Env) (c : Client) (jid : String) (w : World) :
    (Client.GetJob env c jid w).2.calls =
      w.calls ++ [⟨c, "qless", [.int 0, .str "get", .int64 (env.now w.reads), .str jid]⟩] := by
  unfold Client.GetJob
  simp only [timestamp, Client.Do, NewJob, generateJID]
  split
  · rfl
  · split <;> rfl

theorem GetRecurringJob_calls (env : Env) (c : Client) (jid : String) (w : World) :
    (Client.GetRecurringJob env c jid w).2.calls =
      w.calls ++ [⟨c, "qless", [.int 0, .str "recur", .int64 (env.now w.reads), .str "get",
        .str jid]⟩] := by
  unfold Client.GetRecurringJob
  simp only [timestamp, Client.Do]
  split
  · rfl
  · split <;> rfl

/-- C2: `Client.Get` performs the Job lookup first.  When that lookup succeeds,
or fails with an error other than `redis.ErrNil`, `Get` returns its job and
error and has issued the `get` invocation only.  When it fails with
`redis.ErrNil`, `Get` performs the RecurringJob lookup next and returns the
result and the error of that second lookup, having issued the `get` and then
the `recur get` invocation. -/
theorem Get_lookup_order (env : Env) (c : Client) (jid : String) (w : World) :
    ((Client.GetJob env c jid w).1.2 = none →
      Client.Get env c jid w =
        ((.job (Client.GetJob env c jid w).1.1, none), (Client.GetJob env c jid w).2) ∧
      (Client.Get env c jid w).2.calls =
        w.calls ++ [⟨c, "qless", [.int 0, .str "get", .int64 (env.now w.reads), .str jid]⟩]) ∧
    ((Client.GetJob env c jid w).1.2 = some Error.ErrNil →
      Client.Get env c jid w =
        ((.rjob (Client.GetRecurringJob env c jid (Client.GetJob env c jid w).2).1.1,
          (Client.GetRecurringJob env c jid (Client.GetJob env c jid w).2).1.2),
         (Client.GetRecurringJob env c jid (Client.GetJob env c jid w).2).2) ∧
      (Client.Get env c jid w).2.calls =
        w.calls ++
          [⟨c, "qless", [.int 0, .str "get", .int64 (env.now w.reads), .str jid]⟩,
           ⟨c, "qless", [.int 0, .str "recur",
             .int64 (env.now (Client.GetJob env c jid w).2.reads), .str "get", .str jid]⟩]) ∧
    (∀ e : Error, (Client.GetJob env c jid w).1.2 = some e → e ≠ Error.ErrNil →
      Client.Get env c jid w =
        ((.job (Client.GetJob env c jid w).1.1, some e), (Client.GetJob env c jid w).2) ∧
      (Client.Get env c jid w).2.calls =
        w.calls ++
          [⟨c, "qless", [.int 0, .str "get", .int64 (env.now w.reads), .str jid]⟩]) := by
  refine ⟨?_, ?_, ?_⟩
  · intro h
    have hg : Client.Get env c jid w =
        ((.job (Client.GetJob env c jid w).1.1, none), (Client.GetJob env c jid w).2) := by
      unfold Client.Get
      simp [h]
    refine ⟨hg, ?_⟩
    rw [hg]
    exact GetJob_calls env c jid w
  · intro h
    have hg : Client.Get env c jid w =
        ((.rjob (Client.GetRecurringJob env c jid (Client.GetJob env c jid w).2).1.1,
          (Client.GetRecurringJob env c jid (Client.GetJob env c jid w).2).1.2),
         (Client.GetRecurringJob env c jid (Client.GetJob env c jid w).2).2) := by
      unfold Client.Get
      simp [h]
    refine ⟨hg, ?_⟩
    rw [hg]
    simp only [GetRecurringJob_calls, GetJob_calls, List.append_assoc, List.singleton_append]
  · intro e h hne
    have hg : Client.Get env c jid w =
        ((.job (Client.GetJob env c jid w).1.1, some e), (Client.GetJob env c jid w).2) := by
      unfold Client.Get
      simp [h, hne]
    refine ⟨hg, ?_⟩
    rw [hg]
    exact GetJob_calls env c jid w

/-- C2 at concrete replies: when the plain job is not found and the
recurring-job lookup fails, the error of the second lookup is the one returned
and both invocations were issued, in that order; when the plain job is found, it
is returned after the one `get` invocation. -/
theorem Get_lookup_order_witness :
    Client.Get (sampleEnv notFoundThenFail) sampleClient "j1" World.start =
      ((.rjob none, some (.redis "ERR")),
       { calls := [⟨sampleClient, "qless", [.int 0, .str "get", .int64 1700000000, .str "j1"]⟩,
                   ⟨sampleClient, "qless",
                     [.int 0, .str "recur", .int64 1700000001, .str "get", .str "j1"]⟩],
         reads := 2, jids := 0 }) ∧
    (Client.Get (sampleEnv (fun _ _ => (.bytes "j9", none))) sampleClient "j1"
      World.start).2.calls =
      [⟨sampleClient, "qless", [.int 0, .str "get", .int64 1700000000, .str "j1"]⟩] :=
  ⟨((Get_lookup_order (sampleEnv notFoundThenFail) sampleClient "j1" World.start).2.1 rfl).1,
   ((Get_lookup_order (sampleEnv (fun _ _ => (.bytes "j9", none))) sampleClient "j1"
      World.start).1 rfl).2⟩

/-- C4: `RecurringJob.Update` with the single entry whose key is "priority" in
any letter case and whose value is the integer `v`: the priority of the record
becomes `v`, every other field is unchanged, and the one invocation issued is
the update call whose arguments are 0, "recur", the timestamp, "update", the
identifier, and then the one pair "priority", `v`. -/
theorem Update_priority (env : Env) (r : RecurringJob) (key : String) (v : Int) (w : World)
    (h : strings.ToLower key = "priority") :
    RecurringJob.Update env r [(key, .int v)] w =
      some ({ r with Priority := v },
        { calls := w.calls ++ [⟨r.cli, "qless",
            [.int 0, .str "recur", .int64 (env.now w.reads), .str "update", .str r.Jid,
              .str "priority", .int v]⟩],
          reads := w.reads + 1, jids := w.jids }) := by
  have hf : FieldByName (ucfirst "priority") = some .Priority := by decide
  have hd : ("priority" = "data") = False := by decide
  simp [RecurringJob.Update, RecurringJob.updateLoop, h, hf, hd, RecurringJob.Set, timestamp,
    Client.Do]

/-- C4 at the mapping with the one entry "Priority" (capitalised), value 7. -/
theorem Update_priority_witness :
    strings.ToLower "Priority" = "priority" ∧
    RecurringJob.Update (sampleEnv notFoundThenFail) sampleRecurringJob
        [("Priority", .int 7)] World.start =
      some ({ Tags := ["t"], Jid := "r1", Retries := 3, Data := .str "payload", Queue := "q",
              Interval := 60, Count := 2, Klass := "K", Priority := 7, cli := sampleClient },
        { calls := [⟨sampleClient, "qless",
            [.int 0, .str "recur", .int64 1700000000, .str "update", .str "r1",
              .str "priority", .int 7]⟩],
          reads := 1, jids := 0 }) :=
  ⟨by decide,
   Update_priority (sampleEnv notFoundThenFail) sampleRecurringJob "Priority" 7 World.start
     (by decide)⟩

theorem Update_data (env : Env) (r : RecurringJob) (key : String) (value : Value) (w : World)
    (h : strings.ToLower key = "data") :
    RecurringJob.Update env r [(key, value)] w =
      some ({ r with Data := marshal env value },
        { calls := w.calls ++ [⟨r.cli, "qless",
            [.int 0, .str "recur", .int64 (env.now w.reads), .str "update", .str r.Jid,
              .str "data", value]⟩],
          reads := w.reads + 1, jids := w.jids }) := by
  have hf : FieldByName (ucfirst "data") = some .Data := by decide
  simp [RecurringJob.Update, RecurringJob.updateLoop, h, hf, RecurringJob.Set, timestamp,
    Client.Do, marshal]

/-- C6 at the mapping with the one entry "data", value the string x: the value
forwarded in the update call is the string x itself, not its JSON encoding,
which is what the record keeps in its `Data` field. -/
theorem Update_data_forwarded_raw :
    marshal (sampleEnv notFoundThenFail) (.str "x") = .bytes "\"x\"" ∧
    RecurringJob.Update (sampleEnv notFoundThenFail) sampleRecurringJob
        [("data", .str "x")] World.start =
      some ({ Tags := ["t"], Jid := "r1", Retries := 3, Data := .bytes "\"x\"", Queue := "q",
              Interval := 60, Count := 2, Klass := "K", Priority := 1, cli := sampleClient },
        { calls := [⟨sampleClient, "qless",
            [.int 0, .str "recur", .int64 1700000000, .str "update", .str "r1",
              .str "data", .str "x"]⟩],
          reads := 1, jids := 0 }) :=
  ⟨rfl, rfl⟩

/-- C8: each of `Job.Move`, `Job.Fail`, `Job.Heartbeat`, `Job.Complete` and
`Job.Retry` issues exactly one invocation of the dispatcher, and whenever that
invocation fails with an error `e` the operation returns `e` itself, together
with the zero result (empty string, false, 0), and issues nothing more. -/
theorem state_change_failure_surfaced (env : Env) (j : Job) (queueName typ message : String)
    (delay : Int) (w : World) :
    ((Job.Move env j queueName w).2.calls =
        w.calls ++ [⟨j.cli, "qless", [.int 0, .str "put", .int64 (env.now w.reads),
          .str queueName, .str j.Jid, .str j.Klass, marshal env j.Data, .int 0]⟩] ∧
      ∀ (v : Value) (e : Error),
        env.respond w.calls ⟨j.cli, "qless", [.int 0, .str "put", .int64 (env.now w.reads),
          .str queueName, .str j.Jid, .str j.Klass, marshal env j.Data, .int 0]⟩ = (v, some e) →
        (Job.Move env j queueName w).1 = ("", some e)) ∧
    ((Job.Fail env j typ message w).2.calls =
        w.calls ++ [⟨j.cli, "qless", [.int 0, .str "fail", .int64 (env.now w.reads),
          .str j.Jid, .str j.Worker, .str typ, .str message, marshal env j.Data]⟩] ∧
      ∀ (v : Value) (e : Error),
        env.respond w.calls ⟨j.cli, "qless", [.int 0, .str "fail", .int64 (env.now w.reads),
          .str j.Jid, .str j.Worker, .str typ, .str message, marshal env j.Data]⟩ =
            (v, some e) →
        (Job.Fail env j typ message w).1 = (false, some e)) ∧
    ((Job.Heartbeat env j w).2.calls =
        w.calls ++ [⟨j.cli, "qless", [.int 0, .str "heartbeat", .int64 (env.now w.reads),
          .str j.Jid, .str j.Worker, marshal env j.Data]⟩] ∧
      ∀ (v : Value) (e : Error),
        env.respond w.calls ⟨j.cli, "qless", [.int 0, .str "heartbeat",
          .int64 (env.now w.reads), .str j.Jid, .str j.Worker, marshal env j.Data]⟩ =
            (v, some e) →
        (Job.Heartbeat env j w).1 = (false, some e)) ∧
    ((Job.Complete env j w).2.calls =
        w.calls ++ [⟨j.cli, "qless", [.int 0, .str "complete", .int64 (env.now w.reads),
          .str j.Jid, .str j.Worker, .str j.Queue, marshal env j.Data]⟩] ∧
      ∀ (v : Value) (e : Error),
        env.respond w.calls ⟨j.cli, "qless", [.int 0, .str "complete",
          .int64 (env.now w.reads), .str j.Jid, .str j.Worker, .str j.Queue,
          marshal env j.Data]⟩ = (v, some e) →
        (Job.Complete env j w).1 = ("", some e)) ∧
    ((Job.Retry env j delay w).2.calls =
        w.calls ++ [⟨j.cli, "qless", [.int 0, .str "retry", .int64 (env.now w.reads),
          .str j.Jid, .str j.Queue, .str j.Worker, .int delay]⟩] ∧
      ∀ (v : Value) (e : Error),
        env.respond w.calls ⟨j.cli, "qless", [.int 0, .str "retry", .int64 (env.now w.reads),
          .str j.Jid, .str j.Queue, .str j.Worker, .int delay]⟩ = (v, some e) →
        (Job.Retry env j delay w).1 = (0, some e)) := by
  refine ⟨⟨rfl, ?_⟩, ⟨rfl, ?_⟩, ⟨rfl, ?_⟩, ⟨rfl, ?_⟩, ⟨rfl, ?_⟩⟩
  · intro v e h
    simp [Job.Move, timestamp, Client.Do, h, redisString]
  · intro v e h
    simp [Job.Fail, timestamp, Client.Do, h, goqless.Bool]
  · intro v e h
    simp [Job.Heartbeat, timestamp, Client.Do, h, goqless.Bool]
  · intro v e h
    simp [Job.Complete, timestamp, Client.Do, h, redisString]
  · intro v e h
    simp [Job.Retry, timestamp, Client.Do, h, redisInt]

/-- C8 at a cancelled job: the heartbeat sent after the cancellation of the same
job fails in the runtime, and `Job.Heartbeat` returns that very error with the
result false, having issued its one invocation. -/
theorem state_change_failure_surfaced_witness :
    (Job.Heartbeat (sampleEnv lostAfterCancel) sampleJob
      (Job.Cancel (sampleEnv lostAfterCancel) sampleJob World.start)).1 =
        (false, some (.redis "ERR Job does not exist")) ∧
    (Job.Heartbeat (sampleEnv lostAfterCancel) sampleJob
      (Job.Cancel (sampleEnv lostAfterCancel) sampleJob World.start)).2.calls =
        [⟨sampleClient, "qless", [.int 0, .str "cancel", .int64 1700000000, .str "j1"]⟩,
         ⟨sampleClient, "qless", [.int 0, .str "heartbeat", .int64 1700000001, .str "j1",
           .str "w1", .bytes "\"payload\""]⟩] :=
  ⟨(state_change_failure_surfaced (sampleEnv lostAfterCancel) sampleJob "q" "kind" "message" 0
      (Job.Cancel (sampleEnv lostAfterCancel) sampleJob World.start)).2.2.1.2 .nil
      (.redis "ERR Job does not exist") rfl,
   (state_change_failure_surfaced (sampleEnv lostAfterCancel) sampleJob "q" "kind" "message" 0
      (Job.Cancel (sampleEnv lostAfterCancel) sampleJob World.start)).2.2.1.1⟩

theorem snoc_inj {α : Type} {l1 l2 : List α} {a b : α} (h : l1 ++ [a] = l2 ++ [b]) :
    l1 = l2 ∧ a = b := by
  have h2 := List.append_inj' h rfl
  exact ⟨h2.1, by simpa using h2.2⟩

theorem GetJob_fail (env : Env) (c : Client) (jid : String) (w : World) (v : Value) (e : Error)
    (h : env.respond w.calls
      ⟨c, "qless", [.int 0, .str "get", .int64 (env.now w.reads), .str jid]⟩ = (v, some e)) :
    (Client.GetJob env c jid w).1.2 = some e := by
  simp [Client.GetJob, timestamp, Client.Do, h, redisBytes]

theorem GetRecurringJob_fail (env : Env) (c : Client) (jid : String) (w : World) (v : Value)
    (e : Error)
    (h : env.respond w.calls
      ⟨c, "qless", [.int 0, .str "recur", .int64 (env.now w.reads), .str "get", .str jid]⟩ =
        (v, some e)) :
    (Client.GetRecurringJob env c jid w).1.2 = some e := by
  simp [Client.GetRecurringJob, timestamp, Client.Do, h, redisBytes]

theorem Queues_calls (env : Env) (c : Client) (name : String) (w : World) :
    (Client.Queues env c name w).2.calls =
      w.calls ++ [⟨c, "qless",
        if name = "" then [.int 0, .str "queues", .int64 (env.now w.reads)]
        else [.int 0, .str "queues", .int64 (env.now w.reads), .str name]⟩] := by
  unfold Client.Queues
  simp only [timestamp, Client.Do]
  by_cases hn : name = ""
  · simp only [hn, ne_eq, not_true_eq_false, if_false, if_true]
    split
    · rfl
    · split <;> rfl
  · simp only [hn, ne_eq, not_false_eq_true, if_false, if_true, List.cons_append,
      List.nil_append]
    split
    · rfl
    · split <;> rfl

theorem Queues_fail (env : Env) (c : Client) (name : String) (w : World) (v : Value) (e : Error)
    (h : env.respond w.calls ⟨c, "qless",
        if name = "" then [.int 0, .str "queues", .int64 (env.now w.reads)]
        else [.int 0, .str "queues", .int64 (env.now w.reads), .str name]⟩ = (v, some e)) :
    (Client.Queues env c name w).1.2 = some e := by
  unfold Client.Queues
  simp only [timestamp, Client.Do]
  by_cases hn : name = ""
  · simp only [hn, ne_eq, not_true_eq_false, if_false, if_true] at h ⊢
    simp [h, redisBytes]
  · simp only [hn, ne_eq, not_false_eq_true, if_false, if_true, List.cons_append,
      List.nil_append] at h ⊢
    simp [h, redisBytes]

theorem Completed_calls (env : Env) (c : Client) (start count : Int) (w : World) :
    (Client.Completed env c start count w).2.calls =
      w.calls ++ [⟨c, "qless", [.int 0, .str "jobs", .int64 (env.now w.reads),
        .str "complete"]⟩] := by
  unfold Client.Completed
  simp only [timestamp, Client.Do]
  split <;> rfl

theorem Tagged_calls (env : Env) (c : Client) (tag : String) (start count : Int) (w : World) :
    (Client.Tagged env c tag start count w).2.calls =
      w.calls ++ [⟨c, "qless", [.int 0, .str "tag", .int64 (env.now w.reads), .str "get",
        .str tag, .int start, .int count]⟩] := by
  unfold Client.Tagged
  simp only [timestamp, Client.Do]
  split <;> rfl

theorem GetConfig_calls (env : Env) (c : Client) (option : String) (w : World) :
    (Client.GetConfig env c option w).2.calls =
      w.calls ++ [⟨c, "qless", [.int 0, .str "config.get", .int64 (env.now w.reads),
        .str option]⟩] := by
  unfold Client.GetConfig
  simp only [timestamp, Client.Do]
  split
  · rfl
  · split <;> rfl

theorem Get_calls_nonempty (env : Env) (c : Client) (jid : String) (w : World) :
    ∃ hist call, (Client.Get env c jid w).2.calls = hist ++ [call] := by
  unfold Client.Get
  by_cases hE : (Client.GetJob env c jid w).1.2 = some Error.ErrNil
  · simp only [hE, if_true]
    exact ⟨_, _, GetRecurringJob_calls env c jid _⟩
  · simp only [hE, if_false]
    exact ⟨_, _, GetJob_calls env c jid w⟩

theorem updateLoop_respond (env : Env) (f : List Call → Call → Value × Option Error)
    (opts : List (String × Value)) (st : RecurringJob × List Value) :
    RecurringJob.updateLoop { env with respond := f } opts st =
      RecurringJob.updateLoop env opts st := by
  induction opts generalizing st with
  | nil => rfl
  | cons e opts ih =>
    obtain ⟨key, value⟩ := e
    obtain ⟨r, args⟩ := st
    simp only [RecurringJob.updateLoop, marshal, ih]

theorem result_op_fails (env : Env) (op : ResultOp) (w : World) (hist : List Call) (call : Call)
    (v : Value) (e : Error) (hc : (op.run env w).2.calls = hist ++ [call])
    (hr : env.respond hist call = (v, some e)) :
    (op.run env w).1 = some e := by
  cases op
  case ClientQueues c name =>
    simp only [ResultOp.run, Queues_calls] at hc ⊢
    obtain ⟨rfl, rfl⟩ := snoc_inj hc
    exact Queues_fail env c name w v e hr
  case ClientGet c jid =>
    simp only [ResultOp.run] at hc ⊢
    by_cases hE : (Client.GetJob env c jid w).1.2 = some Error.ErrNil
    · have hg : Client.Get env c jid w =
          ((.rjob (Client.GetRecurringJob env c jid (Client.GetJob env c jid w).2).1.1,
            (Client.GetRecurringJob env c jid (Client.GetJob env c jid w).2).1.2),
           (Client.GetRecurringJob env c jid (Client.GetJob env c jid w).2).2) := by
        unfold Client.Get
        simp [hE]
      rw [hg] at hc ⊢
      simp only [GetRecurringJob_calls] at hc
      obtain ⟨rfl, rfl⟩ := snoc_inj hc
      exact GetRecurringJob_fail env c jid _ v e hr
    · have hg : Client.Get env c jid w =
          ((.job (Client.GetJob env c jid w).1.1, (Client.GetJob env c jid w).1.2),
            (Client.GetJob env c jid w).2) := by
        unfold Client.Get
        simp [hE]
      rw [hg] at hc ⊢
      simp only [GetJob_calls] at hc
      obtain ⟨rfl, rfl⟩ := snoc_inj hc
      exact GetJob_fail env c jid w v e hr
  case ClientGetJob c jid =>
    simp only [ResultOp.run, GetJob_calls] at hc ⊢
    obtain ⟨rfl, rfl⟩ := snoc_inj hc
    exact GetJob_fail env c jid w v e hr
  case ClientGetRecurringJob c jid =>
    simp only [ResultOp.run, GetRecurringJob_calls] at hc ⊢
    obtain ⟨rfl, rfl⟩ := snoc_inj hc
    exact GetRecurringJob_fail env c jid w v e hr
  case ClientCompleted c s n =>
    simp only [ResultOp.run, Completed_calls] at hc ⊢
    obtain ⟨rfl, rfl⟩ := snoc_inj hc
    simp [Client.Completed, timestamp, Client.Do, hr, redisValues]
  case ClientTagged c t s n =>
    simp only [ResultOp.run, Tagged_calls] at hc ⊢
    obtain ⟨rfl, rfl⟩ := snoc_inj hc
    simp [Client.Tagged, timestamp, Client.Do, hr, redisBytes]
  case ClientGetConfig c o =>
    simp only [ResultOp.run, GetConfig_calls] at hc ⊢
    obtain ⟨rfl, rfl⟩ := snoc_inj hc
    simp [Client.GetConfig, timestamp, Client.Do, hr]
  all_goals
    simp only [ResultOp.run, Client.Do, Client.Track, Client.Untrack, Client.Tracked,
      Job.Move, Job.Fail, Job.Heartbeat, Job.Complete, Job.CompleteWithNoData,
      Job.HeartbeatWithNoData, Job.Track, Job.Untrack, Job.Tag, Job.Untag, Job.Retry,
      Job.Depend, Job.Undepend, timestamp] at hc ⊢
    obtain ⟨rfl, rfl⟩ := snoc_inj hc
    try simp only [List.cons_append, List.nil_append] at hr
    simp [hr, redisString, goqless.Bool, redisInt]

theorem result_op_calls (env : Env) (op : ResultOp) (w : World) :
    ∃ hist call, (op.run env w).2.calls = hist ++ [call] := by
  cases op
  case ClientQueues c name => exact ⟨_, _, Queues_calls env c name w⟩
  case ClientGet c jid => exact Get_calls_nonempty env c jid w
  case ClientGetJob c jid => exact ⟨_, _, GetJob_calls env c jid w⟩
  case ClientGetRecurringJob c jid => exact ⟨_, _, GetRecurringJob_calls env c jid w⟩
  case ClientCompleted c s n => exact ⟨_, _, Completed_calls env c s n w⟩
  case ClientTagged c t s n => exact ⟨_, _, Tagged_calls env c t s n w⟩
  case ClientGetConfig c o => exact ⟨_, _, GetConfig_calls env c o w⟩
  all_goals exact ⟨_, _, rfl⟩

/-- C9 as stated fails: `Job.Cancel`, `RecurringJob.Tag` and `Client.SetConfig`
return nothing, so a failed invocation does not reach their caller: with a
dispatcher that fails every call they leave exactly what they leave with a
dispatcher that answers every call. -/
theorem Cancel_failure_not_returned :
    ((sampleEnv (fun _ _ => (.nil, some (.redis "ERR")))).respond []
      ⟨sampleClient, "qless", [.int 0, .str "cancel", .int64 1700000000, .str "j1"]⟩).2 =
      some (.redis "ERR") ∧
    ((sampleEnv (fun _ _ => (.int64 1, none))).respond []
      ⟨sampleClient, "qless", [.int 0, .str "cancel", .int64 1700000000, .str "j1"]⟩).2 =
      none ∧
    Job.Cancel (sampleEnv (fun _ _ => (.nil, some (.redis "ERR")))) sampleJob World.start =
      { calls := [⟨sampleClient, "qless",
          [.int 0, .str "cancel", .int64 1700000000, .str "j1"]⟩], reads := 1, jids := 0 } ∧
    Job.Cancel (sampleEnv (fun _ _ => (.int64 1, none))) sampleJob World.start =
      { calls := [⟨sampleClient, "qless",
          [.int 0, .str "cancel", .int64 1700000000, .str "j1"]⟩], reads := 1, jids := 0 } ∧
    RecurringJob.Tag (sampleEnv (fun _ _ => (.nil, some (.redis "ERR")))) sampleRecurringJob
        [.str "a"] World.start =
      RecurringJob.Tag (sampleEnv (fun _ _ => (.int64 1, none))) sampleRecurringJob
        [.str "a"] World.start ∧
    Client.SetConfig (sampleEnv (fun _ _ => (.nil, some (.redis "ERR")))) sampleClient
        "heartbeat" (.int 60) World.start =
      Client.SetConfig (sampleEnv (fun _ _ => (.int64 1, none))) sampleClient
        "heartbeat" (.int 60) World.start :=
  ⟨rfl, rfl, rfl, rfl, rfl, rfl⟩

/-- C9, amended: every operation of `Client` and `Job` that returns a result
issues at least one invocation, and when the last invocation it issues fails
with an error `e`, the error it returns to its caller is `e`.  The operations
without a result (`Job.Cancel`, `Client.SetConfig`, `Client.UnsetConfig`,
`RecurringJob.Update`, `Cancel`, `Tag`, `Untag`) leave the same outcome whatever
the dispatcher answers. -/
theorem failure_reaches_caller (env : Env) (w : World) :
    (∀ op : ResultOp,
      (∃ hist call, (op.run env w).2.calls = hist ++ [call]) ∧
      (∀ (hist : List Call) (call : Call) (v : Value) (e : Error),
        (op.run env w).2.calls = hist ++ [call] → env.respond hist call = (v, some e) →
        (op.run env w).1 = some e)) ∧
    (∀ (f : List Call → Call → Value × Option Error) (j : Job) (r : RecurringJob)
        (c : Client)
        (option : String) (value : Value) (tags : List Value) (opts : List (String × Value)),
      Job.Cancel { env with respond := f } j w = Job.Cancel env j w ∧
      Client.SetConfig { env with respond := f } c option value w =
        Client.SetConfig env c option value w ∧
      Client.UnsetConfig { env with respond := f } c option w =
        Client.UnsetConfig env c option w ∧
      RecurringJob.Update { env with respond := f } r opts w = RecurringJob.Update env r opts w ∧
      RecurringJob.Cancel { env with respond := f } r w = RecurringJob.Cancel env r w ∧
      RecurringJob.Tag { env with respond := f } r tags w = RecurringJob.Tag env r tags w ∧
      RecurringJob.Untag { env with respond := f } r tags w = RecurringJob.Untag env r tags w) := by
  refine ⟨fun op => ⟨result_op_calls env op w, result_op_fails env op w⟩, ?_⟩
  intro f j r c option value tags opts
  refine ⟨rfl, rfl, rfl, ?_, rfl, rfl, rfl⟩
  simp only [RecurringJob.Update, updateLoop_respond]
  rfl

/-- C9, amended, at concrete replies: the plain job is not found, the
recurring-job lookup (the last invocation) fails, and `Client.Get` returns the
error of that invocation. -/
theorem failure_reaches_caller_witness :
    (ResultOp.run (sampleEnv notFoundThenFail) (.ClientGet sampleClient "j1") World.start).1 =
      some (.redis "ERR") :=
  ((failure_reaches_caller (sampleEnv notFoundThenFail) World.start).1
      (.ClientGet sampleClient "j1")).2
    [⟨sampleClient, "qless", [.int 0, .str "get", .int64 1700000000, .str "j1"]⟩]
    ⟨sampleClient, "qless", [.int 0, .str "recur", .int64 1700000001, .str "get", .str "j1"]⟩
    .nil (.redis "ERR") rfl rfl

/-- C10 as stated fails: for the job with identifier "j1", `Client.Track` passes
one argument more than `Job.Track` (a trailing empty string), and
`Client.Untrack` passes one argument more than `Job.Untrack` (the number 0
before "untrack"). -/
theorem Track_args_differ :
    sampleJob.Jid = "j1" ∧
    (Client.Track (sampleEnv notFoundThenFail) sampleClient "j1" World.start).2.calls =
      [⟨sampleClient, "qless",
        [.int 0, .str "track", .int64 1700000000, .str "track", .str "j1", .str ""]⟩] ∧
    (Job.Track (sampleEnv notFoundThenFail) sampleJob World.start).2.calls =
      [⟨sampleClient, "qless",
        [.int 0, .str "track", .int64 1700000000, .str "track", .str "j1"]⟩] ∧
    (Client.Untrack (sampleEnv notFoundThenFail) sampleClient "j1" World.start).2.calls =
      [⟨sampleClient, "qless",
        [.int 0, .str "track", .int64 1700000000, .int 0, .str "untrack", .str "j1"]⟩] ∧
    (Job.Untrack (sampleEnv notFoundThenFail) sampleJob World.start).2.calls =
      [⟨sampleClient, "qless",
        [.int 0, .str "track", .int64 1700000000, .str "untrack", .str "j1"]⟩] ∧
    (Client.Track (sampleEnv notFoundThenFail) sampleClient "j1" World.start).2.calls.map
        Call.args ≠
      (Job.Track (sampleEnv notFoundThenFail) sampleJob World.start).2.calls.map Call.args ∧
    (Client.Untrack (sampleEnv notFoundThenFail) sampleClient "j1" World.start).2.calls.map
        Call.args ≠
      (Job.Untrack (sampleEnv notFoundThenFail) sampleJob World.start).2.calls.map Call.args :=
  ⟨rfl, rfl, rfl, rfl, rfl,
   by simp [Client.Track, Job.Track, Client.Do, timestamp, World.start],
   by simp [Client.Untrack, Job.Untrack, Client.Do, timestamp, World.start]⟩

/-- C10, amended: for a job whose identifier is `jid`, `Client.Track` passes to
the entry point "qless" the argument list that `Job.Track` passes, followed by
one further argument, the empty string. -/
theorem Track_args_related (env : Env) (c : Client) (jid : String) (j : Job) (w : World)
    (h : j.Jid = jid) :
    ∃ args : List Value,
      (Job.Track env j w).2.calls = w.calls ++ [⟨j.cli, "qless", args⟩] ∧
      (Client.Track env c jid w).2.calls = w.calls ++ [⟨c, "qless", args ++ [.str ""]⟩] := by
  subst h
  exact ⟨[.int 0, .str "track", .int64 (env.now w.reads), .str "track", .str j.Jid], rfl, rfl⟩

/-- C10, amended, at the sample job and its identifier "j1". -/
theorem Track_args_related_witness :
    ∃ args : List Value,
      (Job.Track (sampleEnv notFoundThenFail) sampleJob World.start).2.calls =
        World.start.calls ++ [⟨sampleJob.cli, "qless", args⟩] ∧
      (Client.Track (sampleEnv notFoundThenFail) sampleClient "j1" World.start).2.calls =
        World.start.calls ++ [⟨sampleClient, "qless", args ++ [.str ""]⟩] :=
  Track_args_related (sampleEnv notFoundThenFail) sampleClient "j1" sampleJob World.start rfl

end Goqless
